import Mathlib

/-! owoTrackVR device handler

A shallow embedding of `UDPDeviceQuatServer` (liveness latch, heartbeat cadence,
datagram drain loop) and of `TrackingHandler` (`Initialize`, `Update`,
`CalculatePose`), followed by the properties proved about them.

Conventions of the embedding:

* a member function becomes a function from the object state (and the inputs the
  environment supplies during the call: clock readings, received datagrams,
  failures of socket calls) to the new state and the observable outputs;
* `unsigned long long` values are naturals below `2 ^ 64`, subtraction wraps;
* the vector/quaternion library used by `CalculatePose` is not part of the
  sources and is taken as a parameter (`MathLib`); where a property is about the
  values it computes, an exact rational model of it (`exactMath`) is used.
-/

namespace OwoTrack

/-! ## Status codes (`TrackingHandler.h`) -/

/-- The success code `S_OK`. -/
abbrev S_OK : Int := 0
/-- `R_E_CON_DEAD 0x00010001`: no connection. -/
abbrev R_E_CON_DEAD : Int := 0x00010001
/-- `R_E_NO_DATA 0x00010002`: no data received. -/
abbrev R_E_NO_DATA : Int := 0x00010002
/-- `R_E_INIT_FAILED 0x00010003`: init failed. -/
abbrev R_E_INIT_FAILED : Int := 0x00010003
/-- `R_E_PORTS_TAKEN 0x00010004`: ports taken. -/
abbrev R_E_PORTS_TAKEN : Int := 0x00010004
/-- `R_E_NOT_STARTED 0x00010005`: disconnected (initial). -/
abbrev R_E_NOT_STARTED : Int := 0x00010005

/-! ## The data server (`UDPDeviceQuatServer`) -/

/-- Modelled from the spec: the message discriminators declared in
`NetworkedDeviceQuatServer.h`, which is not among the sources
(0 Heartbeat, 1 Handshake, 2 Rotation, 3 Gyro, 4 Accelerometer). -/
abbrev MSG_HEARTBEAT : Int := 0
/-- Modelled from the spec: discriminator of a handshake (see `MSG_HEARTBEAT`). -/
abbrev MSG_HANDSHAKE : Int := 1
/-- Modelled from the spec: discriminator of a rotation sample (see `MSG_HEARTBEAT`). -/
abbrev MSG_ROTATION : Int := 2
/-- Modelled from the spec: discriminator of a gyroscope sample (see `MSG_HEARTBEAT`). -/
abbrev MSG_GYRO : Int := 3
/-- Modelled from the spec: discriminator of an accelerometer sample (see `MSG_HEARTBEAT`). -/
abbrev MSG_ACCELEROMETER : Int := 4

/-- The modulus of `unsigned long long` arithmetic. -/
abbrev U64 : Nat := 2 ^ 64

/-- Wrap-around of a 32-bit signed `int` (the increment of `hb_accum`). -/
def wrapInt32 (x : Int) : Int := (x + 2147483648) % 4294967296 - 2147483648

/-- The clock `std::time(nullptr)` read at a wall-clock instant given in
microseconds since the epoch: whole seconds, the fraction is dropped. The result is
what `more_data_exists__read` casts to `unsigned long long`. -/
def std_time (wallMicros : Nat) : Nat := (wallMicros / 1000000) % U64

/-- A datagram handed out by `Socket.SendTo`. -/
inductive OutMsg where
  /-- A `ByteBuffer` filled by successive `putInt` calls. -/
  | ints (values : List Int)
  /-- The literal handshake reply `buff_hello`. -/
  | hello
deriving DecidableEq, Repr

/-- The heartbeat built by `send_heartbeat`: `putInt(1)`, `putInt(0)`. -/
def heartbeatMsg : OutMsg := OutMsg.ints [1, 0]

/-- One datagram returned by `Socket.RecvFrom`, with what the environment decides
while it is handled. `R` is the scalar type of the stored rotation. -/
structure Datagram (R : Type) where
  /-- The reading of `std::time` taken at the top of the read that returned it. -/
  time : Nat
  /-- The header decoded by `convert_chars<message_header_type_t>`. -/
  msg_type : Int
  /-- The four rotation components the packet carries (used by rotation packets). -/
  rotation : R × R × R × R
  /-- The `what()` of the error thrown by the handshake reply `SendTo`, if it fails. -/
  replyFault : Option String

/-- The fields of `UDPDeviceQuatServer` together with the two pieces of its base
class that the handler reads. -/
structure UDPDeviceQuatServer (R : Type) where
  last_contact_time : Nat
  curr_time : Nat
  connectionIsDead : Bool
  hb_accum : Int
  /-- Modelled from the spec: the availability flag of the base class
  `NetworkedDeviceQuatServer` (absent from the sources), true once a rotation
  sample has been stored. -/
  dataAvailable : Bool
  /-- Modelled from the spec: the latest rotation sample kept by the base class
  `NetworkedDeviceQuatServer` (absent from the sources). -/
  rotation : R × R × R × R

variable {R : Type}

/-- The constructor: `last_contact_time = 0`, `curr_time = 0`,
`connectionIsDead = false`; `hb_accum` has no initialiser, so its first value
`hb0` is whatever the memory held; `rot0` is the base class's initial rotation. -/
def UDPDeviceQuatServer.new (hb0 : Int) (rot0 : R × R × R × R) : UDPDeviceQuatServer R :=
  { last_contact_time := 0, curr_time := 0, connectionIsDead := false,
    hb_accum := hb0, dataAvailable := false, rotation := rot0 }

/-- The value of `curr_time - last_contact_time` in `unsigned long long`. -/
def UDPDeviceQuatServer.gap (s : UDPDeviceQuatServer R) : Nat :=
  (s.curr_time % U64 + U64 - s.last_contact_time % U64) % U64

/-- Modelled from the spec: `NetworkedDeviceQuatServer::isDataAvailable` (absent from
the sources): true once the orientation state has been populated. -/
def isDataAvailable (s : UDPDeviceQuatServer R) : Bool := s.dataAvailable

/-- Modelled from the spec: `NetworkedDeviceQuatServer::handle_rotation_packet`
(absent from the sources): a rotation sample overwrites the orientation state, which
from then on counts as available. -/
def handle_rotation_packet (s : UDPDeviceQuatServer R) (q : R × R × R × R) :
    UDPDeviceQuatServer R :=
  { s with rotation := q, dataAvailable := true }

/-- Modelled from the spec: `NetworkedDeviceQuatServer::getRotationQuaternion`
(absent from the sources): the latest rotation sample. -/
def getRotationQuaternion (s : UDPDeviceQuatServer R) : R × R × R × R := s.rotation

/-- `UDPDeviceQuatServer::isConnectionAlive`: the answer and the state it leaves. -/
def isConnectionAlive (s : UDPDeviceQuatServer R) : Bool × UDPDeviceQuatServer R :=
  if s.connectionIsDead then (false, s)
  else
    let s1 : UDPDeviceQuatServer R :=
      if s.gap > 2 then { s with connectionIsDead := true } else s
    (!s1.connectionIsDead, s1)

/-- What a member function of the server leaves behind: the state, the datagrams it
sent, and the `what()` of the `std::system_error` that ended it, if any. -/
structure Outcome (R : Type) where
  server : UDPDeviceQuatServer R
  sent : List OutMsg
  thrown : Option String

/-- `UDPDeviceQuatServer::send_heartbeat`; `sendFault` is the error `SendTo` throws
if it is reached and fails. -/
def send_heartbeat (s : UDPDeviceQuatServer R) (sendFault : Option String) : Outcome R :=
  let s1 : UDPDeviceQuatServer R := { s with hb_accum := wrapInt32 (s.hb_accum + 1) }
  if s1.hb_accum > 200 then
    let s2 : UDPDeviceQuatServer R := { s1 with hb_accum := 0 }
    let r := isConnectionAlive s2
    if !r.1 then ⟨r.2, [], none⟩
    else
      match sendFault with
      | some e => ⟨r.2, [], some e⟩
      | none => ⟨r.2, [heartbeatMsg], none⟩
  else ⟨s1, [], none⟩

/-- `UDPDeviceQuatServer::more_data_exists__read`: one receive attempt. `now` is the
clock reading, `recv` the datagram `RecvFrom` returns (`none`: nothing to read).
The first component is the returned `bool`. The gyroscope and accelerometer handlers
of the base class change none of the fields kept here. -/
def more_data_exists__read (s : UDPDeviceQuatServer R) (now : Nat)
    (recv : Option (Datagram R)) : Bool × Outcome R :=
  let s1 : UDPDeviceQuatServer R := { s with curr_time := now % U64 }
  match recv with
  | none => (false, ⟨s1, [], none⟩)
  | some d =>
    let s2 : UDPDeviceQuatServer R :=
      { s1 with last_contact_time := s1.curr_time, connectionIsDead := false }
    if d.msg_type = MSG_HEARTBEAT then (true, ⟨s2, [], none⟩)
    else if d.msg_type = MSG_ROTATION then
      (true, ⟨handle_rotation_packet s2 d.rotation, [], none⟩)
    else if d.msg_type = MSG_GYRO then (true, ⟨s2, [], none⟩)
    else if d.msg_type = MSG_ACCELEROMETER then (true, ⟨s2, [], none⟩)
    else if d.msg_type = MSG_HANDSHAKE then
      match d.replyFault with
      | some e => (true, ⟨s2, [], some e⟩)
      | none => (true, ⟨s2, [OutMsg.hello], none⟩)
    else (true, ⟨s2, [], none⟩)

/-- The loop `while (more_data_exists__read()) {}` of `tick`: the queued datagrams
are read in order, then one more read at clock reading `finalTime` finds nothing.
An error thrown while a datagram is handled leaves the loop. -/
def drain (s : UDPDeviceQuatServer R) : List (Datagram R) → Nat → Outcome R
  | [], finalTime => (more_data_exists__read s finalTime none).2
  | d :: ds, finalTime =>
    let r := (more_data_exists__read s d.time (some d)).2
    match r.thrown with
    | some e => ⟨r.server, r.sent, some e⟩
    | none =>
      let t := drain r.server ds finalTime
      ⟨t.server, r.sent ++ t.sent, t.thrown⟩

/-- What the environment supplies during one `tick` of the data server. -/
structure TickEnv (R : Type) where
  /-- The error the heartbeat `SendTo` throws, if a heartbeat is sent and fails. -/
  hbSendFault : Option String
  /-- The datagrams waiting on the socket, in arrival order. -/
  datagrams : List (Datagram R)
  /-- The clock reading of the read that finds the socket empty. -/
  finalTime : Nat

/-- `UDPDeviceQuatServer::tick`. -/
def tick (s : UDPDeviceQuatServer R) (env : TickEnv R) : Outcome R :=
  let h := send_heartbeat s env.hbSendFault
  match h.thrown with
  | some e => ⟨h.server, h.sent, some e⟩
  | none =>
    let t := drain h.server env.datagrams env.finalTime
    ⟨t.server, h.sent ++ t.sent, t.thrown⟩

/-- Consecutive ticks: the final state and, per tick, the datagrams it sent. -/
def ticks (s : UDPDeviceQuatServer R) : List (TickEnv R) → UDPDeviceQuatServer R × List (List OutMsg)
  | [] => (s, [])
  | e :: es =>
    let r := tick s e
    let rest := ticks r.server es
    (rest.1, r.sent :: rest.2)

/-- A tick during which nothing is received and no send fails. -/
def quietTick (now : Nat) : TickEnv R := { hbSendFault := none, datagrams := [], finalTime := now }

/-- The calls a client makes on the data server. -/
inductive ServerCall (R : Type) where
  | tick (env : TickEnv R)
  | isConnectionAlive

/-- Whether a call takes no datagram from the socket. -/
def ServerCall.receivesNothing : ServerCall R → Bool
  | ServerCall.tick env => env.datagrams.isEmpty
  | ServerCall.isConnectionAlive => true

/-- A sequence of calls on the data server: the final state and the answers of the
`isConnectionAlive` calls, in order. -/
def calls (s : UDPDeviceQuatServer R) : List (ServerCall R) → UDPDeviceQuatServer R × List Bool
  | [] => (s, [])
  | ServerCall.tick env :: cs => calls (tick s env).server cs
  | ServerCall.isConnectionAlive :: cs =>
    let r := isConnectionAlive s
    let rest := calls r.2 cs
    (rest.1, r.1 :: rest.2)

/-! ## The value types of the plugin interface and the math library -/

/-- The interface struct `Vector`, declared in generated headers that are not among
the sources, as `CalculatePose` uses it: three `float` fields `X`, `Y`, `Z`. -/
structure Vector (F : Type) where
  X : F
  Y : F
  Z : F
deriving DecidableEq, Repr

/-- The interface struct `Quaternion`, declared in generated headers that are not
among the sources, as `CalculatePose` uses it: four `float` fields, brace-initialised
in the order `X`, `Y`, `Z`, `W`. -/
structure Quaternion (F : Type) where
  X : F
  Y : F
  Z : F
  W : F
deriving DecidableEq, Repr

/-- The interface struct `Pose`, declared in generated headers that are not among the
sources, as `CalculatePose` uses it: a position and an orientation. -/
structure Pose (F : Type) where
  Position : Vector F
  Orientation : Quaternion F
deriving DecidableEq, Repr

/-- The scalar types and the vector, quaternion and basis operations that
`CalculatePose` calls. Their implementation (floating-point arithmetic and the
math headers) is not among the sources, so the handler is defined over any
implementation of this interface. -/
structure MathLib where
  /-- The type `float` of the interface structs. -/
  float : Type
  /-- The type `real_t` the math library computes in. -/
  real : Type
  /-- The library type `Vector3`. -/
  Vector3 : Type
  /-- The library type `Quat`. -/
  Quat : Type
  /-- The library type `Basis`. -/
  Basis : Type
  /-- An integer literal used as a `float` (`0`, `1`). -/
  f32 : Int → float
  /-- A decimal literal used as a `real_t` (`0`, `1`, `-1`, `0.2`, `2.0`). -/
  lit : ℚ → real
  /-- The constant `Math_PI`. -/
  Math_PI : real
  /-- The implicit conversion `float → real_t`. -/
  ofFloat : float → real
  /-- The conversion `static_cast<float>`. -/
  toFloat : real → float
  /-- Addition of two `float`s (`+=` on a position component). -/
  addF : float → float → float
  /-- Negation of a `float` (`-headsetYaw`). -/
  negF : float → float
  /-- Addition of two `real_t`s. -/
  add : real → real → real
  /-- Subtraction of two `real_t`s. -/
  sub : real → real → real
  /-- Division of two `real_t`s. -/
  div : real → real → real
  /-- Negation of a `real_t`. -/
  neg : real → real
  /-- The constructor `Vector3(x, y, z)`. -/
  vector3 : real → real → real → Vector3
  /-- The operator `Vector3 + Vector3`. -/
  vadd : Vector3 → Vector3 → Vector3
  /-- The operator `Vector3 * Vector3`. -/
  vmul : Vector3 → Vector3 → Vector3
  /-- The method `Vector3::normalized`. -/
  normalized : Vector3 → Vector3
  /-- The method `Vector3::get_axis`. -/
  get_axis : Vector3 → Nat → real
  /-- The constructor `Quat(x, y, z, w)`. -/
  quat : real → real → real → real → Quat
  /-- The constructor `Quat(axis, angle)`. -/
  quatAxisAngle : Vector3 → real → Quat
  /-- The constructor `Quat(euler)`. -/
  quatEuler : Vector3 → Quat
  /-- The constructor `Quat(Quaternion)` from the interface type. -/
  quatOfWinRT : Quaternion float → Quat
  /-- The method `Quat::toWinRT`. -/
  toWinRT : Quat → Quaternion float
  /-- The operator `Quat * Quat`. -/
  qmul : Quat → Quat → Quat
  /-- The method `Quat::inverse`. -/
  inverse : Quat → Quat
  /-- The method `Quat::get_euler_yxz`. -/
  get_euler_yxz : Quat → Vector3
  /-- The constructor `Basis(Quat)`. -/
  basisOfQuat : Quat → Basis
  /-- The method `Basis::xform`. -/
  xform : Basis → Vector3 → Vector3
  /-- The helper `get_yaw(Quat)`. -/
  get_yaw : Quat → real
  /-- The helper `get_yaw(Basis, Vector3)`. -/
  get_yaw_basis : Basis → Vector3 → real

/-! ## The handler (`TrackingHandler`) -/

/-- The data members of `TrackingHandler` that its methods read or write. The
pointer `dataServer` is represented by the object it points to. -/
structure TrackingHandler (M : MathLib) where
  initialized : Bool
  calibratingForward : Bool
  calibratingDown : Bool
  devicePort : Nat
  statusResult : Int
  dataServer : UDPDeviceQuatServer M.real
  globalRotation : Quaternion M.float
  localRotation : Quaternion M.float
  eRetries : Int

variable {M : MathLib}

/-- A default-constructed handler (the member initialisers of `TrackingHandler.h`).
`dataServer` is an uninitialised pointer there; `garbage` stands for what it happens
to point to, which is never read before `Initialize` replaces it. -/
def TrackingHandler.fresh (garbage : UDPDeviceQuatServer M.real) : TrackingHandler M :=
  { initialized := false, calibratingForward := false, calibratingDown := false,
    devicePort := 6969, statusResult := R_E_NOT_STARTED, dataServer := garbage,
    globalRotation := ⟨M.f32 0, M.f32 0, M.f32 0, M.f32 0⟩,
    localRotation := ⟨M.f32 0, M.f32 0, M.f32 0, M.f32 0⟩,
    eRetries := 0 }

/-- `TrackingHandler::LogMessage`: the line handed to `logEvent`. -/
def LogMessage (message : String) (severity : Int) : String :=
  "[" ++ toString severity ++ "] " ++ message

/-- The two lines a `catch (std::system_error& e)` block logs: a headline and
`e.what()`. -/
def logFault (headline : String) : Option String → List String
  | some what => [LogMessage headline 2, LogMessage ("Error message: " ++ what) 2]
  | none => []

/-- What the environment supplies during one `Update`. -/
structure UpdateEnv (M : MathLib) where
  /-- The error thrown by `infoServer->tick()`, if it fails. -/
  infoFault : Option String
  /-- The inputs of `dataServer->tick()`. -/
  data : TickEnv M.real

/-- The handler after a call, with the events raised during the call. -/
structure Raised (M : MathLib) where
  handler : TrackingHandler M
  /-- The payloads passed to `statusChangedEvent`, in order. -/
  statusChanged : List String
  /-- The lines passed to `logEvent`, in order. -/
  log : List String

/-- `TrackingHandler::Update`. The counter is below 180 where it is incremented, so
the increment cannot overflow. -/
def Update (s : TrackingHandler M) (env : UpdateEnv M) : Raised M :=
  if s.initialized then
    let log1 := logFault "OWO Device Error: Info server tick (heartbeat) failed!" env.infoFault
    let t := tick s.dataServer env.data
    let log2 := logFault "OWO Device Error: Data listener tick (heartbeat) failed!" t.thrown
    if !isDataAvailable t.server then
      if s.eRetries ≥ 180 then
        let a := isConnectionAlive t.server
        ⟨{ s with dataServer := a.2, eRetries := 0,
                  statusResult := if a.1 then R_E_NO_DATA else R_E_CON_DEAD },
          ["STATUS ERROR"], log1 ++ log2⟩
      else
        ⟨{ s with dataServer := t.server, eRetries := s.eRetries + 1 }, [], log1 ++ log2⟩
    else
      let previousStatus := s.statusResult
      ⟨{ s with dataServer := t.server, statusResult := S_OK },
        if previousStatus ≠ S_OK then ["STATUS OK"] else [], log1 ++ log2⟩
  else ⟨s, [], []⟩

/-- How `dataServer->startListening(_return)` ends. -/
inductive ListenOutcome where
  /-- `Socket.Bind` succeeded and left `port` in `devicePort`. -/
  | bound (port : Nat)
  /-- `Socket.Bind` returned false. -/
  | bindFailed
  /-- A `std::system_error` with the given `what()` was thrown. -/
  | threw (what : String)

/-- What the environment supplies during one `Initialize`. -/
structure InitEnv (M : MathLib) where
  /-- The indeterminate first value of `hb_accum` in the new data server. -/
  hb0 : Int
  /-- The initial rotation of the new data server. -/
  rot0 : M.real × M.real × M.real × M.real
  /-- The flag the `InfoServer` constructor returns: the discovery port was bound. -/
  infoBound : Bool
  /-- The outcome of `startListening`, if it is called. -/
  listen : ListenOutcome

/-- The handler after `Initialize`, with the returned code and the logged lines. -/
structure InitResult (M : MathLib) where
  handler : TrackingHandler M
  ret : Int
  log : List String

/-- The tail of `Initialize` (`// Mark the device as initialized`). -/
def markInitialized (s : TrackingHandler M) (log : List String) : InitResult M :=
  if s.statusResult ≠ R_E_INIT_FAILED ∧ s.statusResult ≠ R_E_PORTS_TAKEN then
    ⟨{ s with initialized := true, calibratingForward := false, calibratingDown := false },
      S_OK, log⟩
  else ⟨s, s.statusResult, log⟩

/-- `TrackingHandler::Initialize`. The discovery server is represented by the flag
its constructor returns; the port and tracker it is told about
(`set_port_no`, `add_tracker`) are not kept. -/
def Initialize (s : TrackingHandler M) (env : InitEnv M) : InitResult M :=
  if s.statusResult = R_E_NOT_STARTED then
    let s1 : TrackingHandler M :=
      { s with dataServer := UDPDeviceQuatServer.new env.hb0 env.rot0 }
    if !env.infoBound then
      ⟨{ s1 with statusResult := R_E_PORTS_TAKEN }, R_E_PORTS_TAKEN,
        [LogMessage "OWO Device Error: Failed to bind ports!" 2]⟩
    else
      match env.listen with
      | ListenOutcome.threw what =>
        ⟨{ s1 with statusResult := R_E_INIT_FAILED }, R_E_INIT_FAILED,
          logFault "OWO Device Error: Failed to start the data listener up!" (some what)⟩
      | ListenOutcome.bindFailed =>
        ⟨{ s1 with statusResult := R_E_PORTS_TAKEN }, R_E_PORTS_TAKEN,
          [LogMessage "OWO Device Error: Failed to bind ports!" 2]⟩
      | ListenOutcome.bound port =>
        markInitialized { s1 with devicePort := port, statusResult := R_E_CON_DEAD } []
  else markInitialized s []

/-- `TrackingHandler::Shutdown`: the handler it leaves (the call returns 0). -/
def Shutdown (s : TrackingHandler M) : TrackingHandler M :=
  { s with initialized := false }

/-- `TrackingHandler::CalculatePose`: the returned pose and the handler it leaves. -/
def CalculatePose (s : TrackingHandler M) (headsetPose : Pose M.float) (headsetYaw : M.float)
    (globalOffset deviceOffset trackerOffset : Vector M.float) :
    Pose M.float × TrackingHandler M :=
  if !s.initialized || s.statusResult != S_OK then
    (⟨⟨M.f32 0, M.f32 0, M.f32 0⟩, ⟨M.f32 0, M.f32 0, M.f32 0, M.f32 1⟩⟩, s)
  else
    let offset_global0 := M.vector3 (M.ofFloat globalOffset.X) (M.ofFloat globalOffset.Y)
      (M.ofFloat globalOffset.Z)
    let offset_local_device0 := M.vector3 (M.ofFloat deviceOffset.X) (M.ofFloat deviceOffset.Y)
      (M.ofFloat deviceOffset.Z)
    let offset_local_tracker0 := M.vector3 (M.ofFloat trackerOffset.X)
      (M.ofFloat trackerOffset.Y) (M.ofFloat trackerOffset.Z)
    let position0 : Vector M.float :=
      ⟨headsetPose.Position.X, headsetPose.Position.Y, headsetPose.Position.Z⟩
    let offset_basis := M.basisOfQuat (M.quat (M.ofFloat headsetPose.Orientation.X)
      (M.ofFloat headsetPose.Orientation.Y) (M.ofFloat headsetPose.Orientation.Z)
      (M.ofFloat headsetPose.Orientation.W))
    let p_remote_rotation := getRotationQuaternion s.dataServer
    let q0 := M.quat p_remote_rotation.1 p_remote_rotation.2.1 p_remote_rotation.2.2.1
      p_remote_rotation.2.2.2
    let q1 := M.qmul (M.quatAxisAngle (M.vector3 (M.lit 1) (M.lit 0) (M.lit 0))
      (M.div (M.neg M.Math_PI) (M.lit 2))) q0
    let forward := M.vector3 (M.lit 0) (M.lit 0) (M.lit (-1))
    let s1 : TrackingHandler M :=
      if s.calibratingForward then
        { s with globalRotation := M.toWinRT (M.quatEuler (M.vector3 (M.lit 0)
            (M.sub (M.get_yaw q1) (M.get_yaw_basis offset_basis forward)) (M.lit 0))) }
      else s
    let offset_global :=
      if s.calibratingForward then
        M.vadd (M.normalized (M.vmul (M.xform offset_basis forward)
          (M.vector3 (M.lit 1) (M.lit 0) (M.lit 1)))) (M.vector3 (M.lit 0) (M.lit (1 / 5)) (M.lit 0))
      else offset_global0
    let offset_local_device :=
      if s.calibratingForward then M.vector3 (M.lit 0) (M.lit 0) (M.lit 0)
      else offset_local_device0
    let offset_local_tracker :=
      if s.calibratingForward then M.vector3 (M.lit 0) (M.lit 0) (M.lit 0)
      else offset_local_tracker0
    let q2 := M.qmul (M.quatOfWinRT s1.globalRotation) q1
    let s2 : TrackingHandler M :=
      if s1.calibratingDown then
        { s1 with localRotation := M.toWinRT (M.qmul
            (M.quatEuler (M.get_euler_yxz (M.inverse q2)))
            (M.quatAxisAngle (M.vector3 (M.lit 0) (M.lit 1) (M.lit 0))
              (M.ofFloat (M.negF headsetYaw)))) }
      else s1
    let q3 := M.qmul q2 (M.quatOfWinRT s2.localRotation)
    let final_tracker_basis := M.basisOfQuat q3
    let component (i : Nat) : M.float :=
      M.toFloat (M.add (M.add (M.get_axis offset_global i)
        (M.get_axis (M.xform offset_basis offset_local_device) i))
        (M.get_axis (M.xform final_tracker_basis offset_local_tracker) i))
    (⟨⟨M.addF position0.X (component 0), M.addF position0.Y (component 1),
        M.addF position0.Z (component 2)⟩, M.toWinRT q3⟩, s2)

/-- The calls a host makes on the handler, with the inputs of each. `OnLoad`,
`Signal`, the getters and the event subscriptions write none of the members kept in
`TrackingHandler` and are left out. -/
inductive Call (M : MathLib) where
  | Update (env : UpdateEnv M)
  | Initialize (env : InitEnv M)
  | Shutdown
  | setPort (value : Int)
  | setCalibratingForward (value : Bool)
  | setCalibratingDown (value : Bool)
  | setGlobalRotation (value : Quaternion M.float)
  | setLocalRotation (value : Quaternion M.float)
  | CalculatePose (headsetPose : Pose M.float) (headsetYaw : M.float)
      (globalOffset deviceOffset trackerOffset : Vector M.float)

/-- The handler after one call. -/
def step (s : TrackingHandler M) : Call M → TrackingHandler M
  | Call.Update env => (Update s env).handler
  | Call.Initialize env => (Initialize s env).handler
  | Call.Shutdown => Shutdown s
  | Call.setPort value => { s with devicePort := (value % 4294967296).toNat }
  | Call.setCalibratingForward value => { s with calibratingForward := value }
  | Call.setCalibratingDown value => { s with calibratingDown := value }
  | Call.setGlobalRotation value => { s with globalRotation := value }
  | Call.setLocalRotation value => { s with localRotation := value }
  | Call.CalculatePose h y g d t => (CalculatePose s h y g d t).2

/-- The handler after a sequence of calls. -/
def run (s : TrackingHandler M) : List (Call M) → TrackingHandler M
  | [] => s
  | c :: cs => run (step s c) cs

/-- Consecutive `Update` calls: the final handler and, per call, the payloads passed
to `statusChangedEvent`. -/
def updates (s : TrackingHandler M) : List (UpdateEnv M) → TrackingHandler M × List (List String)
  | [] => (s, [])
  | e :: es =>
    let r := Update s e
    let rest := updates r.handler es
    (rest.1, r.statusChanged :: rest.2)

/-- Whether `isDataAvailable()` is false at the check of every `Update` of a run. -/
def noDataThroughout (s : TrackingHandler M) : List (UpdateEnv M) → Bool
  | [] => true
  | e :: es =>
    !isDataAvailable (tick s.dataServer e.data).server && noDataThroughout (Update s e).handler es

/-! ## A symbolic instance of the math interface -/

/-- Terms over the operations of `MathLib`: the instance in which every operation
builds the expression it stands for. Evaluating the handler in it yields the
expressions the code computes, without fixing a floating-point semantics. -/
inductive Term where
  | var (name : String)
  | f32 (i : Int)
  | lit (q : ℚ)
  | Math_PI
  | ofFloat (a : Term)
  | toFloat (a : Term)
  | addF (a b : Term)
  | negF (a : Term)
  | add (a b : Term)
  | sub (a b : Term)
  | div (a b : Term)
  | neg (a : Term)
  | vector3 (x y z : Term)
  | vadd (a b : Term)
  | vmul (a b : Term)
  | normalized (a : Term)
  | get_axis (a : Term) (i : Nat)
  | quat (x y z w : Term)
  | quatAxisAngle (axis angle : Term)
  | quatEuler (euler : Term)
  | quatOfWinRT (x y z w : Term)
  | winRT (q : Term) (field : Nat)
  | qmul (a b : Term)
  | inverse (a : Term)
  | get_euler_yxz (a : Term)
  | basisOfQuat (q : Term)
  | xform (b v : Term)
  | get_yaw (q : Term)
  | get_yaw_basis (b v : Term)
deriving DecidableEq, Repr

/-- The symbolic math library: all carriers are `Term`, all operations constructors. -/
def termMath : MathLib :=
  { float := Term, real := Term, Vector3 := Term, Quat := Term, Basis := Term,
    f32 := Term.f32, lit := Term.lit, Math_PI := Term.Math_PI,
    ofFloat := Term.ofFloat, toFloat := Term.toFloat, addF := Term.addF, negF := Term.negF,
    add := Term.add, sub := Term.sub, div := Term.div, neg := Term.neg,
    vector3 := Term.vector3, vadd := Term.vadd, vmul := Term.vmul,
    normalized := Term.normalized, get_axis := Term.get_axis,
    quat := Term.quat, quatAxisAngle := Term.quatAxisAngle, quatEuler := Term.quatEuler,
    quatOfWinRT := fun q => Term.quatOfWinRT q.X q.Y q.Z q.W,
    toWinRT := fun q => ⟨Term.winRT q 0, Term.winRT q 1, Term.winRT q 2, Term.winRT q 3⟩,
    qmul := Term.qmul, inverse := Term.inverse, get_euler_yxz := Term.get_euler_yxz,
    basisOfQuat := Term.basisOfQuat, xform := Term.xform,
    get_yaw := Term.get_yaw, get_yaw_basis := Term.get_yaw_basis }

/-- A data server as the constructor leaves it, in the symbolic instance. -/
def sampleServer : UDPDeviceQuatServer termMath.real :=
  UDPDeviceQuatServer.new 0 (Term.lit 0, Term.lit 0, Term.lit 0, Term.lit 1)

/-- A handler after a successful `Initialize`, in the symbolic instance. -/
def sampleHandler : TrackingHandler termMath :=
  (Initialize (TrackingHandler.fresh sampleServer)
    { hb0 := 0, rot0 := (Term.lit 0, Term.lit 0, Term.lit 0, Term.lit 1),
      infoBound := true, listen := ListenOutcome.bound 6969 }).handler

/-- A headset pose made of named unknowns. -/
def samplePose : Pose termMath.float :=
  ⟨⟨Term.var "hx", Term.var "hy", Term.var "hz"⟩,
   ⟨Term.var "qx", Term.var "qy", Term.var "qz", Term.var "qw"⟩⟩

/-- An offset vector made of named unknowns. -/
def sampleOffset (name : String) : Vector termMath.float :=
  ⟨Term.var (name ++ ".X"), Term.var (name ++ ".Y"), Term.var (name ++ ".Z")⟩

/-- An `Update` during which nothing is received and nothing fails, every clock
reading being `now`. -/
def quietUpdate (now : Nat) : UpdateEnv M := { infoFault := none, data := quietTick now }

/-- The statuses an initialized handler can have: none of NotStarted, InitFailed,
PortsTaken. It holds of every handler a host can reach (`run_fresh_startedInv`). -/
def StartedInv (s : TrackingHandler M) : Prop :=
  s.initialized = true →
    s.statusResult ≠ R_E_NOT_STARTED ∧ s.statusResult ≠ R_E_INIT_FAILED ∧
      s.statusResult ≠ R_E_PORTS_TAKEN

/-- A handler whose initialization failed with the error code `err`. -/
def FailedWith (err : Int) (s : TrackingHandler M) : Prop :=
  s.statusResult = err ∧ s.initialized = false

/-- A data server whose last contact is 7 seconds old and whose dead flag is not yet
latched. -/
def staleServer : UDPDeviceQuatServer Int := ⟨0, 7, false, 0, false, (0, 0, 0, 1)⟩

/-- Two ticks that receive nothing, each followed by an `isConnectionAlive` call. -/
def quietCalls : List (ServerCall Int) :=
  [ServerCall.tick (quietTick 100), ServerCall.isConnectionAlive,
    ServerCall.tick (quietTick 7), ServerCall.isConnectionAlive]

/-- A tick that receives one heartbeat datagram while the clock reads `recvTime`
and whose last read sees the clock at `finalTime`. -/
def oneDatagramTick (recvTime finalTime : Nat) : TickEnv Int :=
  ⟨none, [⟨recvTime, MSG_HEARTBEAT, (0, 0, 0, 1), none⟩], finalTime⟩

/-- A tick that receives two heartbeat datagrams, the first while the clock reads
10 and the second while it reads 13, and whose last read sees the clock at 13. -/
def burstTick : TickEnv Int :=
  ⟨none, [⟨10, MSG_HEARTBEAT, (0, 0, 0, 1), none⟩, ⟨13, MSG_HEARTBEAT, (0, 0, 0, 1), none⟩], 13⟩

/-- Whether handling a received datagram ends in a thrown error: it is a handshake
and the reply `SendTo` fails. -/
def Datagram.replyThrows (d : Datagram R) : Bool :=
  decide (d.msg_type = MSG_HANDSHAKE) && d.replyFault.isSome

/-- The last datagram of the queue `d :: ds` that the loop of `tick` handles: the
first one whose handling throws, or the last one queued if none does. -/
def lastHandled : Datagram R → List (Datagram R) → Datagram R
  | d, [] => d
  | d, e :: es => if d.replyThrows then d else lastHandled e es

/-- Whether the loop of `tick` over the queued datagrams is left by a thrown error. -/
def drainThrows (ds : List (Datagram R)) : Bool := ds.any Datagram.replyThrows

/-! ## The position described for forward calibration, and an exact math library -/

theorem isConnectionAlive_of_dead (s : UDPDeviceQuatServer R) (h : s.connectionIsDead = true) :
    isConnectionAlive s = (false, s) := by
  simp [isConnectionAlive, h]

theorem isConnectionAlive_of_le (s : UDPDeviceQuatServer R) (h : s.connectionIsDead = false)
    (hg : s.gap ≤ 2) : isConnectionAlive s = (true, s) := by
  have : ¬ s.gap > 2 := by omega
  simp [isConnectionAlive, h, this]

theorem isConnectionAlive_of_gt (s : UDPDeviceQuatServer R) (h : s.connectionIsDead = false)
    (hg : 2 < s.gap) : isConnectionAlive s = (false, { s with connectionIsDead := true }) := by
  simp [isConnectionAlive, h, hg]

theorem isConnectionAlive_false_latched (s : UDPDeviceQuatServer R)
    (h : (isConnectionAlive s).1 = false) : (isConnectionAlive s).2.connectionIsDead = true := by
  cases hd : s.connectionIsDead
  · by_cases hg : 2 < s.gap
    · rw [isConnectionAlive_of_gt s hd hg]
    · rw [isConnectionAlive_of_le s hd (by omega)] at h
      simp at h
  · rw [isConnectionAlive_of_dead s hd]; exact hd

theorem isConnectionAlive_dataAvailable (s : UDPDeviceQuatServer R) :
    (isConnectionAlive s).2.dataAvailable = s.dataAvailable := by
  unfold isConnectionAlive
  split
  · rfl
  · dsimp only
    split <;> rfl

theorem wrapInt32_small (x : Int) (h0 : -2147483648 ≤ x) (h1 : x < 2147483648) :
    wrapInt32 x = x := by
  unfold wrapInt32
  omega

theorem read_some (s : UDPDeviceQuatServer R) (now : Nat) (d : Datagram R) :
    let r := (more_data_exists__read s now (some d)).2
    r.server.connectionIsDead = false ∧ r.server.last_contact_time = now % U64 ∧
      r.server.curr_time = now % U64 ∧ r.server.hb_accum = s.hb_accum ∧
      heartbeatMsg ∉ r.sent := by
  unfold more_data_exists__read
  dsimp only
  repeat' split
  all_goals simp [handle_rotation_packet, heartbeatMsg]

theorem drain_nil (s : UDPDeviceQuatServer R) (tf : Nat) :
    drain s [] tf = ⟨{ s with curr_time := tf % U64 }, [], none⟩ := rfl

theorem drain_hb_accum (ds : List (Datagram R)) (tf : Nat) (s : UDPDeviceQuatServer R) :
    (drain s ds tf).server.hb_accum = s.hb_accum ∧ heartbeatMsg ∉ (drain s ds tf).sent := by
  induction ds generalizing s with
  | nil => simp [drain_nil]
  | cons d ds ih =>
    have hr := read_some s d.time d
    dsimp only at hr
    unfold drain
    dsimp only
    split
    · exact ⟨hr.2.2.2.1, hr.2.2.2.2⟩
    · have := ih (more_data_exists__read s d.time (some d)).2.server
      refine ⟨by rw [this.1, hr.2.2.2.1], ?_⟩
      simp only [List.mem_append, not_or]
      exact ⟨hr.2.2.2.2, this.2⟩

theorem read_thrown (s : UDPDeviceQuatServer R) (now : Nat) (d : Datagram R) :
    ((more_data_exists__read s now (some d)).2.thrown = none ↔ d.replyThrows = false) := by
  unfold more_data_exists__read Datagram.replyThrows
  dsimp only
  by_cases h0 : d.msg_type = MSG_HEARTBEAT
  · simp [h0]
  · by_cases h2 : d.msg_type = MSG_ROTATION
    · simp [h2]
    · by_cases h3 : d.msg_type = MSG_GYRO
      · simp [h3]
      · by_cases h4 : d.msg_type = MSG_ACCELEROMETER
        · simp [h4]
        · by_cases h1 : d.msg_type = MSG_HANDSHAKE
          · cases hf : d.replyFault <;> simp [h1, hf]
          · simp [h0, h1, h2, h3, h4]

theorem drain_last (ds : List (Datagram R)) (d : Datagram R) (tf : Nat)
    (s : UDPDeviceQuatServer R) :
    (drain s (d :: ds) tf).server.connectionIsDead = false ∧
      (drain s (d :: ds) tf).server.last_contact_time = (lastHandled d ds).time % U64 ∧
      (drain s (d :: ds) tf).server.curr_time =
        (if drainThrows (d :: ds) = true then (lastHandled d ds).time % U64 else tf % U64) := by
  induction ds generalizing d s with
  | nil =>
    have hr := read_some s d.time d
    have ht := read_thrown s d.time d
    dsimp only at hr
    unfold drain
    dsimp only
    split
    · rename_i e he
      have hthrow : d.replyThrows = true := by
        cases hb : d.replyThrows
        · rw [ht.mpr hb] at he; cases he
        · rfl
      simp only [drainThrows, List.any_cons, List.any_nil, Bool.or_false, hthrow, if_true,
        lastHandled]
      exact ⟨hr.1, hr.2.1, hr.2.2.1⟩
    · rename_i he
      have hthrow : d.replyThrows = false := ht.mp he
      simp only [drainThrows, List.any_cons, List.any_nil, Bool.or_false, hthrow,
        Bool.false_eq_true, if_false, lastHandled, drain_nil]
      exact ⟨hr.1, hr.2.1, trivial⟩
  | cons e es ih =>
    have hr := read_some s d.time d
    have ht := read_thrown s d.time d
    dsimp only at hr
    unfold drain
    dsimp only
    split
    · rename_i x he
      have hthrow : d.replyThrows = true := by
        cases hb : d.replyThrows
        · rw [ht.mpr hb] at he; cases he
        · rfl
      simp only [drainThrows, List.any_cons, hthrow, Bool.true_or, if_true, lastHandled]
      exact ⟨hr.1, hr.2.1, hr.2.2.1⟩
    · rename_i he
      have hthrow : d.replyThrows = false := ht.mp he
      have h := ih e (more_data_exists__read s d.time (some d)).2.server
      have hl : lastHandled d (e :: es) = lastHandled e es := by
        simp only [lastHandled, hthrow, Bool.false_eq_true, if_false]
      have hd : drainThrows (d :: e :: es) = drainThrows (e :: es) := by
        simp only [drainThrows, List.any_cons, hthrow, Bool.false_or]
      rw [hl, hd]
      exact h

theorem send_heartbeat_below (s : UDPDeviceQuatServer R) (f : Option String)
    (h0 : 0 ≤ s.hb_accum) (h1 : s.hb_accum < 200) :
    send_heartbeat s f = ⟨{ s with hb_accum := s.hb_accum + 1 }, [], none⟩ := by
  have hw : wrapInt32 (s.hb_accum + 1) = s.hb_accum + 1 := wrapInt32_small _ (by omega) (by omega)
  have : ¬ s.hb_accum + 1 > 200 := by omega
  simp [send_heartbeat, hw, this]

theorem send_heartbeat_due (s : UDPDeviceQuatServer R) (f : Option String)
    (h : s.hb_accum = 200) :
    (send_heartbeat s f).server.hb_accum = 0 ∧
      (heartbeatMsg ∈ (send_heartbeat s f).sent ↔ (isConnectionAlive s).1 = true ∧ f = none) ∧
      ((send_heartbeat s f).thrown = none ↔ (isConnectionAlive s).1 = false ∨ f = none) := by
  have hw : wrapInt32 (s.hb_accum + 1) = 201 := by rw [h]; decide
  have ha : isConnectionAlive { s with hb_accum := 0 }
      = ((isConnectionAlive s).1, { (isConnectionAlive s).2 with hb_accum := 0 }) := by
    unfold isConnectionAlive UDPDeviceQuatServer.gap
    dsimp only
    split
    · rfl
    · split <;> rfl
  unfold send_heartbeat
  simp only [hw, ha]
  cases hb : (isConnectionAlive s).1 <;> cases f <;> simp [heartbeatMsg]

theorem send_heartbeat_dead (s : UDPDeviceQuatServer R) (f : Option String)
    (h : s.connectionIsDead = true) :
    (send_heartbeat s f).server.connectionIsDead = true ∧ (send_heartbeat s f).thrown = none := by
  unfold send_heartbeat
  dsimp only
  split
  · rw [isConnectionAlive_of_dead _ (by simpa using h)]
    simp [h]
  · simp [h]

theorem tick_quiet_dead (s : UDPDeviceQuatServer R) (env : TickEnv R)
    (h : s.connectionIsDead = true) (hq : env.datagrams = []) :
    (tick s env).server.connectionIsDead = true := by
  have hs := send_heartbeat_dead s env.hbSendFault h
  unfold tick
  dsimp only
  rw [hs.2, hq, drain_nil]
  exact hs.1

theorem tick_hb_below (s : UDPDeviceQuatServer R) (env : TickEnv R)
    (h0 : 0 ≤ s.hb_accum) (h1 : s.hb_accum < 200) :
    (tick s env).server.hb_accum = s.hb_accum + 1 ∧ heartbeatMsg ∉ (tick s env).sent := by
  unfold tick
  rw [send_heartbeat_below s _ h0 h1]
  dsimp only
  have := drain_hb_accum env.datagrams env.finalTime { s with hb_accum := s.hb_accum + 1 }
  exact ⟨this.1, by simpa using this.2⟩

theorem tick_hb_due (s : UDPDeviceQuatServer R) (env : TickEnv R) (h : s.hb_accum = 200) :
    (tick s env).server.hb_accum = 0 ∧
      (heartbeatMsg ∈ (tick s env).sent ↔
        (isConnectionAlive s).1 = true ∧ env.hbSendFault = none) := by
  have hs := send_heartbeat_due s env.hbSendFault h
  unfold tick
  dsimp only
  split
  · rename_i e he
    refine ⟨hs.1, ?_⟩
    rw [hs.2.1]
  · have hd := drain_hb_accum env.datagrams env.finalTime (send_heartbeat s env.hbSendFault).server
    refine ⟨by rw [hd.1, hs.1], ?_⟩
    simp only [List.mem_append, hd.2, or_false]
    exact hs.2.1

theorem ticks_hb_below (envs : List (TickEnv R)) (s : UDPDeviceQuatServer R)
    (h0 : 0 ≤ s.hb_accum) (h1 : s.hb_accum + envs.length ≤ 200) :
    (ticks s envs).1.hb_accum = s.hb_accum + envs.length ∧
      ∀ out ∈ (ticks s envs).2, heartbeatMsg ∉ out := by
  induction envs generalizing s with
  | nil => simp [ticks]
  | cons e es ih =>
    simp only [List.length_cons, Nat.cast_add, Nat.cast_one] at h1
    have ht := tick_hb_below s e h0 (by omega)
    have := ih (tick s e).server (by omega) (by omega)
    unfold ticks
    dsimp only
    refine ⟨by rw [this.1, ht.1]; simp only [List.length_cons, Nat.cast_add, Nat.cast_one]; omega, ?_⟩
    intro out hout
    rcases List.mem_cons.mp hout with rfl | hmem
    · exact ht.2
    · exact this.2 out hmem


/-! ### Liveness: the 2-second threshold (C4) -/

/-- C4, counterexample. A datagram arrives at wall-clock 10.000000 s and the next
read, 2.000001 s later, finds the socket empty: the gap exceeds 2 seconds, yet
`isConnectionAlive` returns true and the dead flag stays clear, because the clock
`std::time` only counts whole seconds. -/
theorem isConnectionAlive_subsecond_counterexample :
    2000000 < 12000001 - 10000000 ∧
    (isConnectionAlive (drain (UDPDeviceQuatServer.new 0 ((0 : Int), 0, 0, 0))
        [⟨std_time 10000000, MSG_ROTATION, (0, 0, 0, 1), none⟩]
        (std_time 12000001)).server).1 = true ∧
    (isConnectionAlive (drain (UDPDeviceQuatServer.new 0 ((0 : Int), 0, 0, 0))
        [⟨std_time 10000000, MSG_ROTATION, (0, 0, 0, 1), none⟩]
        (std_time 12000001)).server).2.connectionIsDead = false := by
  decide

/-- C4, amended. With the dead flag not latched, `isConnectionAlive` compares the
stored gap `curr_time - last_contact_time` (whole seconds, modulo `2 ^ 64`) with 2:
a gap of at most 2, in particular exactly 2, returns true and leaves the state
unchanged; a gap of 3 or more returns false and latches the dead flag. -/
theorem isConnectionAlive_threshold (s : UDPDeviceQuatServer R)
    (h : s.connectionIsDead = false) :
    (s.gap = 2 → isConnectionAlive s = (true, s)) ∧
    (s.gap ≤ 2 → isConnectionAlive s = (true, s)) ∧
    (3 ≤ s.gap → isConnectionAlive s = (false, { s with connectionIsDead := true })) :=
  ⟨fun hg => isConnectionAlive_of_le s h (by omega),
   fun hg => isConnectionAlive_of_le s h hg,
   fun hg => isConnectionAlive_of_gt s h (by omega)⟩

/-- C4, witness: the amended statement at gaps 2 and 3. -/
theorem isConnectionAlive_threshold_witness :
    isConnectionAlive (⟨10, 12, false, 0, false, ((0 : Int), 0, 0, 1)⟩ : UDPDeviceQuatServer Int)
      = (true, ⟨10, 12, false, 0, false, (0, 0, 0, 1)⟩) ∧
    isConnectionAlive (⟨10, 13, false, 0, false, ((0 : Int), 0, 0, 1)⟩ : UDPDeviceQuatServer Int)
      = (false, ⟨10, 13, true, 0, false, (0, 0, 0, 1)⟩) :=
  ⟨(isConnectionAlive_threshold _ rfl).1 (by decide),
   (isConnectionAlive_threshold _ rfl).2.2 (by decide)⟩


/-! ### The dead flag as a latch (C5) -/

theorem calls_dead (cs : List (ServerCall R)) (s : UDPDeviceQuatServer R)
    (h : s.connectionIsDead = true) (hq : ∀ c ∈ cs, c.receivesNothing = true) :
    ∀ b ∈ (calls s cs).2, b = false := by
  induction cs generalizing s with
  | nil => simp [calls]
  | cons c cs ih =>
    have hrest : ∀ c ∈ cs, c.receivesNothing = true :=
      fun c hc => hq c (List.mem_cons_of_mem _ hc)
    have hc := hq c (List.mem_cons_self _ _)
    cases c with
    | tick env =>
      simp only [ServerCall.receivesNothing, List.isEmpty_iff] at hc
      unfold calls
      exact ih (tick s env).server (tick_quiet_dead s env h hc) hrest
    | isConnectionAlive =>
      unfold calls
      dsimp only
      rw [isConnectionAlive_of_dead s h]
      intro b hb
      rcases List.mem_cons.mp hb with rfl | hmem
      · rfl
      · exact ih s h hrest b hmem

theorem tick_receiving (s : UDPDeviceQuatServer R) (env : TickEnv R) (d : Datagram R)
    (ds : List (Datagram R)) (hq : env.datagrams = d :: ds)
    (hs : (send_heartbeat s env.hbSendFault).thrown = none) :
    (tick s env).server.connectionIsDead = false ∧
      (tick s env).server.last_contact_time = (lastHandled d ds).time % U64 ∧
      (tick s env).server.curr_time =
        (if drainThrows (d :: ds) = true then (lastHandled d ds).time % U64
          else env.finalTime % U64) := by
  unfold tick
  dsimp only
  rw [hs, hq]
  exact drain_last ds d env.finalTime (send_heartbeat s env.hbSendFault).server

/-- C5, counterexample. The dead flag is latched (`isConnectionAlive` has returned
false); a tick receives a datagram while the clock reads 10 and its last read, which
finds the socket empty, sees the clock at 13. `isConnectionAlive` called right after
that tick returns false. -/
theorem revive_counterexample :
    (isConnectionAlive staleServer).1 = false ∧
    (isConnectionAlive (tick (isConnectionAlive staleServer).2
      (oneDatagramTick 10 13)).server).1 = false := by
  decide

/-- C5, amended. Once `isConnectionAlive` has returned false, every later
`isConnectionAlive` call returns false across any sequence of ticks that receive no
datagram, whatever the clock reads. A tick that receives at least one datagram
leaves the dead flag clear and last-contact equal to the clock reading taken at the
receive of the last datagram it handled; its last read attempt (the one that finds
the socket empty, or the handling of that last datagram if it threw) leaves the
current time. `isConnectionAlive` called right after the tick returns true exactly
when the current time is at most 2 seconds (modulo `2 ^ 64`) past last-contact, that
is, when the handling threw or the reading of the empty read is at most 2 seconds
past the reading of the last datagram. -/
theorem dead_flag_latch (s : UDPDeviceQuatServer R) :
    ((isConnectionAlive s).1 = false →
      ∀ cs : List (ServerCall R), (∀ c ∈ cs, c.receivesNothing = true) →
        ∀ b ∈ (calls (isConnectionAlive s).2 cs).2, b = false) ∧
    (∀ (env : TickEnv R) (d : Datagram R) (ds : List (Datagram R)),
      env.datagrams = d :: ds → (send_heartbeat s env.hbSendFault).thrown = none →
      (tick s env).server.connectionIsDead = false ∧
      (tick s env).server.last_contact_time = (lastHandled d ds).time % U64 ∧
      (tick s env).server.curr_time =
        (if drainThrows (d :: ds) = true then (lastHandled d ds).time % U64
          else env.finalTime % U64) ∧
      ((isConnectionAlive (tick s env).server).1 = true ↔ (tick s env).server.gap ≤ 2) ∧
      ((isConnectionAlive (tick s env).server).1 = true ↔
        (drainThrows (d :: ds) = true ∨
          (env.finalTime % U64 + U64 - (lastHandled d ds).time % U64) % U64 ≤ 2))) := by
  refine ⟨fun h cs hq => calls_dead cs _ (isConnectionAlive_false_latched s h) hq, ?_⟩
  intro env d ds hq hs
  obtain ⟨hflag, hlast, hcurr⟩ := tick_receiving s env d ds hq hs
  have hiff : (isConnectionAlive (tick s env).server).1 = true ↔ (tick s env).server.gap ≤ 2 := by
    by_cases hg : (tick s env).server.gap ≤ 2
    · rw [isConnectionAlive_of_le _ hflag hg]
      simp [hg]
    · rw [isConnectionAlive_of_gt _ hflag (by omega)]
      simp [hg]
  refine ⟨hflag, hlast, hcurr, hiff, ?_⟩
  rw [hiff]
  unfold UDPDeviceQuatServer.gap
  rw [hlast, hcurr]
  cases hthrow : drainThrows (d :: ds)
  · simp only [Bool.false_eq_true, if_false, false_or, Nat.mod_mod]
  · simp only [if_true, true_or, iff_true, Nat.mod_mod, U64]
    omega

/-- C5, witness: the amended statement at a server that latches on the first call
(then two quiet ticks, each followed by a call), and at a tick that receives a
burst of two datagrams at clock readings 10 and 13 and ends with an empty read at
13. -/
theorem dead_flag_latch_witness :
    (calls (isConnectionAlive staleServer).2 quietCalls).2.headD true = false ∧
    (tick (isConnectionAlive staleServer).2 burstTick).server.last_contact_time = 13 ∧
    (isConnectionAlive (tick (isConnectionAlive staleServer).2 burstTick).server).1 = true :=
  ⟨(dead_flag_latch staleServer).1 (by decide) quietCalls (by decide)
      ((calls (isConnectionAlive staleServer).2 quietCalls).2.headD true) (by decide),
   ((dead_flag_latch (isConnectionAlive staleServer).2).2 burstTick _ _ rfl
      (by decide)).2.1,
   ((dead_flag_latch (isConnectionAlive staleServer).2).2 burstTick _ _ rfl
      (by decide)).2.2.2.2.mpr (Or.inr (by decide))⟩

/-! ### Heartbeat cadence (C9) -/

theorem ticks_quiet (k : Nat) (t : Nat) (s : UDPDeviceQuatServer R)
    (hc : s.curr_time = t % U64) (h0 : 0 ≤ s.hb_accum) (h1 : s.hb_accum + k ≤ 200) :
    (ticks s (List.replicate k (quietTick t))).1 = { s with hb_accum := s.hb_accum + k } := by
  induction k generalizing s with
  | zero => simp [ticks]
  | succ k ih =>
    have ht : (tick s (quietTick t)).server = { s with hb_accum := s.hb_accum + 1 } := by
      unfold tick
      rw [send_heartbeat_below s _ h0 (by omega)]
      simp only [quietTick, drain_nil]
      rw [← hc]
    have hi := ih { s with hb_accum := s.hb_accum + 1 } hc
      (by show 0 ≤ s.hb_accum + 1; omega)
      (by show s.hb_accum + 1 + (k : Int) ≤ 200; omega)
    simp only [List.replicate_succ, ticks, ht]
    rw [hi]
    have he : s.hb_accum + 1 + (k : Int) = s.hb_accum + ((k + 1 : Nat) : Int) := by omega
    simp only [he]

/-- C9, counterexample. From an accumulator of 0 and a live connection, the 200th
consecutive tick sends no heartbeat and leaves the accumulator at 200; the heartbeat
goes out, and the accumulator returns to 0, on the 201st tick. -/
theorem heartbeat_200th_counterexample :
    (isConnectionAlive (ticks (UDPDeviceQuatServer.new 0 ((0 : Int), 0, 0, 1))
        (List.replicate 199 (quietTick 0))).1).1 = true ∧
    (tick (ticks (UDPDeviceQuatServer.new 0 ((0 : Int), 0, 0, 1))
        (List.replicate 199 (quietTick 0))).1 (quietTick 0)).sent = [] ∧
    (tick (ticks (UDPDeviceQuatServer.new 0 ((0 : Int), 0, 0, 1))
        (List.replicate 199 (quietTick 0))).1 (quietTick 0)).server.hb_accum = 200 ∧
    (tick (ticks (UDPDeviceQuatServer.new 0 ((0 : Int), 0, 0, 1))
        (List.replicate 200 (quietTick 0))).1 (quietTick 0)).sent = [heartbeatMsg] ∧
    (tick (ticks (UDPDeviceQuatServer.new 0 ((0 : Int), 0, 0, 1))
        (List.replicate 200 (quietTick 0))).1 (quietTick 0)).server.hb_accum = 0 := by
  rw [ticks_quiet 199 0 _ rfl (by decide) (by decide),
    ticks_quiet 200 0 _ rfl (by decide) (by decide)]
  decide

/-- C9, amended. Starting from an accumulator of 0, none of the next 200 ticks sends
a heartbeat and the accumulator counts them; the tick after those, the 201st, resets
the accumulator to 0 whether or not the connection is alive, and sends the heartbeat
(the two integers 1, 0) if and only if the connection is alive at that tick and the
send does not fail. -/
theorem heartbeat_every_201st (s : UDPDeviceQuatServer R) (envs : List (TickEnv R))
    (h0 : s.hb_accum = 0) (hlen : envs.length ≤ 200) :
    (∀ out ∈ (ticks s envs).2, heartbeatMsg ∉ out) ∧
    (ticks s envs).1.hb_accum = envs.length ∧
    (envs.length = 200 → ∀ env : TickEnv R,
      (tick (ticks s envs).1 env).server.hb_accum = 0 ∧
      (heartbeatMsg ∈ (tick (ticks s envs).1 env).sent ↔
        (isConnectionAlive (ticks s envs).1).1 = true ∧ env.hbSendFault = none)) := by
  have hb := ticks_hb_below envs s (by omega) (by omega)
  have hacc : (ticks s envs).1.hb_accum = envs.length := by rw [hb.1, h0]; simp
  refine ⟨hb.2, hacc, ?_⟩
  intro h200 env
  exact tick_hb_due _ env (by rw [hacc, h200]; rfl)

/-- C9, witness: the amended statement at 200 quiet ticks of a new server, followed
by the 201st. -/
theorem heartbeat_every_201st_witness :
    (ticks (UDPDeviceQuatServer.new 0 ((0 : Int), 0, 0, 1))
      (List.replicate 200 (quietTick 0))).1.hb_accum = ((List.replicate 200
        (quietTick 0 : TickEnv Int)).length : Int) ∧
    (tick (ticks (UDPDeviceQuatServer.new 0 ((0 : Int), 0, 0, 1))
      (List.replicate 200 (quietTick 0))).1 (quietTick 0)).server.hb_accum = 0 :=
  ⟨(heartbeat_every_201st (UDPDeviceQuatServer.new 0 ((0 : Int), 0, 0, 1))
    (List.replicate 200 (quietTick 0)) rfl (by rw [List.length_replicate])).2.1,
   ((heartbeat_every_201st (UDPDeviceQuatServer.new 0 ((0 : Int), 0, 0, 1))
    (List.replicate 200 (quietTick 0)) rfl (by rw [List.length_replicate])).2.2
      (by rw [List.length_replicate]) (quietTick 0)).1⟩


/-! ### `Update`: the retry counter and the status (C1, C2, C3) -/

theorem Update_noData_below (s : TrackingHandler M) (env : UpdateEnv M)
    (hi : s.initialized = true)
    (hnd : isDataAvailable (tick s.dataServer env.data).server = false)
    (hr : s.eRetries < 180) :
    (Update s env).handler =
        { s with dataServer := (tick s.dataServer env.data).server, eRetries := s.eRetries + 1 } ∧
      (Update s env).statusChanged = [] := by
  have : ¬ (180 : Int) ≤ s.eRetries := by omega
  simp [Update, hi, hnd, this]

theorem Update_noData_due (s : TrackingHandler M) (env : UpdateEnv M)
    (hi : s.initialized = true)
    (hnd : isDataAvailable (tick s.dataServer env.data).server = false)
    (hr : 180 ≤ s.eRetries) :
    (Update s env).handler =
        { s with dataServer := (isConnectionAlive (tick s.dataServer env.data).server).2,
                 eRetries := 0,
                 statusResult := if (isConnectionAlive (tick s.dataServer env.data).server).1
                   then R_E_NO_DATA else R_E_CON_DEAD } ∧
      (Update s env).statusChanged = ["STATUS ERROR"] := by
  simp [Update, hi, hnd, hr]

theorem Update_data (s : TrackingHandler M) (env : UpdateEnv M)
    (hi : s.initialized = true)
    (hd : isDataAvailable (tick s.dataServer env.data).server = true) :
    (Update s env).handler =
        { s with dataServer := (tick s.dataServer env.data).server, statusResult := S_OK } ∧
      (Update s env).statusChanged = if s.statusResult ≠ S_OK then ["STATUS OK"] else [] := by
  simp [Update, hi, hd]

theorem Update_not_initialized (s : TrackingHandler M) (env : UpdateEnv M)
    (hi : s.initialized = false) : Update s env = ⟨s, [], []⟩ := by
  simp [Update, hi]

theorem updates_noData_below (envs : List (UpdateEnv M)) (s : TrackingHandler M)
    (hi : s.initialized = true) (hlen : s.eRetries + envs.length ≤ 180)
    (hnd : noDataThroughout s envs = true) :
    (updates s envs).1.initialized = true ∧
      (updates s envs).1.statusResult = s.statusResult ∧
      (updates s envs).1.eRetries = s.eRetries + envs.length ∧
      ∀ out ∈ (updates s envs).2, out = [] := by
  induction envs generalizing s with
  | nil => simp [updates, hi]
  | cons e es ih =>
    simp only [List.length_cons, Nat.cast_add, Nat.cast_one] at hlen
    simp only [noDataThroughout, Bool.and_eq_true, Bool.not_eq_true'] at hnd
    have hu := Update_noData_below s e hi hnd.1 (by omega)
    have hi1 : (Update s e).handler.initialized = true := by rw [hu.1]; exact hi
    have hr1 : (Update s e).handler.eRetries = s.eRetries + 1 := by rw [hu.1]
    have hs1 : (Update s e).handler.statusResult = s.statusResult := by rw [hu.1]
    have := ih (Update s e).handler hi1 (by rw [hr1]; omega) hnd.2
    unfold updates
    dsimp only
    refine ⟨this.1, by rw [this.2.1, hs1], ?_, ?_⟩
    · rw [this.2.2.1, hr1]
      simp only [List.length_cons, Nat.cast_add, Nat.cast_one]
      omega
    · intro out hout
      rcases List.mem_cons.mp hout with rfl | hmem
      · exact hu.2
      · exact this.2.2.2 out hmem

theorem tick_quiet_below (s : UDPDeviceQuatServer R) (t : Nat)
    (h0 : 0 ≤ s.hb_accum) (h1 : s.hb_accum < 200) :
    (tick s (quietTick t)).server = { s with hb_accum := s.hb_accum + 1, curr_time := t % U64 } := by
  unfold tick
  rw [send_heartbeat_below s _ h0 h1]
  simp only [quietTick, drain_nil]

theorem updates_quiet (k : Nat) (t : Nat) (s : TrackingHandler M)
    (hi : s.initialized = true) (hd : s.dataServer.dataAvailable = false)
    (h0 : 0 ≤ s.dataServer.hb_accum) (h1 : s.dataServer.hb_accum + k ≤ 200)
    (hr : s.eRetries + k ≤ 180) :
    updates s (List.replicate k (quietUpdate t)) =
      ({ s with dataServer := { s.dataServer with
                  hb_accum := s.dataServer.hb_accum + k,
                  curr_time := if k = 0 then s.dataServer.curr_time else t % U64 },
                eRetries := s.eRetries + k }, List.replicate k []) := by
  induction k generalizing s with
  | zero => simp [updates]
  | succ k ih =>
    have ht : (tick s.dataServer (quietUpdate t : UpdateEnv M).data).server
        = { s.dataServer with hb_accum := s.dataServer.hb_accum + 1, curr_time := t % U64 } :=
      tick_quiet_below _ t h0 (by omega)
    have hnd : isDataAvailable (tick s.dataServer (quietUpdate t : UpdateEnv M).data).server
        = false := by rw [ht]; exact hd
    have hu := Update_noData_below s (quietUpdate t) hi hnd (by omega)
    rw [ht] at hu
    have hb1 : (Update s (quietUpdate t)).handler.dataServer.hb_accum
        = s.dataServer.hb_accum + 1 := by rw [hu.1]
    have hr1 : (Update s (quietUpdate t)).handler.eRetries = s.eRetries + 1 := by rw [hu.1]
    have hi2 := ih (Update s (quietUpdate t)).handler
      (by rw [hu.1]; exact hi) (by rw [hu.1]; exact hd)
      (by rw [hb1]; omega) (by rw [hb1]; omega) (by rw [hr1]; omega)
    have e1 : s.dataServer.hb_accum + 1 + (k : Int)
        = s.dataServer.hb_accum + ((k + 1 : Nat) : Int) := by omega
    have e2 : s.eRetries + 1 + (k : Int) = s.eRetries + ((k + 1 : Nat) : Int) := by omega
    rw [hu.1] at hi2
    simp only [e1, e2, ite_self] at hi2
    simp only [List.replicate_succ, updates, hu.1, hu.2, hi2]
    simp

theorem send_heartbeat_dataAvailable (s : UDPDeviceQuatServer R) (f : Option String) :
    (send_heartbeat s f).server.dataAvailable = s.dataAvailable := by
  unfold send_heartbeat
  dsimp only
  split
  · split
    · exact isConnectionAlive_dataAvailable _
    · split <;> exact isConnectionAlive_dataAvailable _
  · rfl

theorem tick_quiet_dataAvailable (s : UDPDeviceQuatServer R) (env : TickEnv R)
    (hq : env.datagrams = []) : (tick s env).server.dataAvailable = s.dataAvailable := by
  unfold tick
  dsimp only
  split
  · exact send_heartbeat_dataAvailable s _
  · rw [hq, drain_nil]
    exact send_heartbeat_dataAvailable s _

theorem Update_quiet_dataAvailable (s : TrackingHandler M) (env : UpdateEnv M)
    (hd : s.dataServer.dataAvailable = false) (hq : env.data.datagrams = []) :
    isDataAvailable (tick s.dataServer env.data).server = false ∧
      (Update s env).handler.dataServer.dataAvailable = false := by
  have ht : isDataAvailable (tick s.dataServer env.data).server = false := by
    unfold isDataAvailable
    rw [tick_quiet_dataAvailable _ _ hq, hd]
  refine ⟨ht, ?_⟩
  cases hi : s.initialized
  · rw [Update_not_initialized s env hi]; exact hd
  · by_cases hr : s.eRetries < 180
    · rw [(Update_noData_below s env hi ht hr).1]
      exact ht
    · rw [(Update_noData_due s env hi ht (by omega)).1]
      show (isConnectionAlive _).2.dataAvailable = false
      rw [isConnectionAlive_dataAvailable]
      exact ht

theorem noDataThroughout_quiet (envs : List (UpdateEnv M)) (s : TrackingHandler M)
    (hd : s.dataServer.dataAvailable = false) (hq : ∀ e ∈ envs, e.data.datagrams = []) :
    noDataThroughout s envs = true := by
  induction envs generalizing s with
  | nil => rfl
  | cons e es ih =>
    have h := Update_quiet_dataAvailable s e hd (hq e (List.mem_cons_self _ _))
    simp only [noDataThroughout, Bool.and_eq_true, Bool.not_eq_true']
    exact ⟨h.1, ih _ h.2 (fun e he => hq e (List.mem_cons_of_mem _ he))⟩

theorem noDataThroughout_append (a b : List (UpdateEnv M)) (s : TrackingHandler M) :
    noDataThroughout s (a ++ b) = (noDataThroughout s a && noDataThroughout (updates s a).1 b) := by
  induction a generalizing s with
  | nil => simp [noDataThroughout, updates]
  | cons e es ih =>
    rw [List.cons_append]
    simp only [noDataThroughout, updates]
    rw [ih, Bool.and_assoc]

/-- C1, counterexample. A handler just initialized (retry counter 0) goes through
181 `Update` calls during which no datagram arrives and the clock stays at 0. The
180th call emits nothing, leaves the status as it was and the counter at 180; the
status is set (to NoData), the counter reset and the notification emitted by the
181st call. -/
theorem retry_180th_counterexample :
    sampleHandler.initialized = true ∧ sampleHandler.eRetries = 0 ∧
    noDataThroughout sampleHandler (List.replicate 181 (quietUpdate 0)) = true ∧
    (Update (updates sampleHandler (List.replicate 179 (quietUpdate 0))).1
      (quietUpdate 0)).statusChanged = [] ∧
    (Update (updates sampleHandler (List.replicate 179 (quietUpdate 0))).1
      (quietUpdate 0)).handler.statusResult = sampleHandler.statusResult ∧
    (Update (updates sampleHandler (List.replicate 179 (quietUpdate 0))).1
      (quietUpdate 0)).handler.eRetries = 180 ∧
    (Update (updates sampleHandler (List.replicate 180 (quietUpdate 0))).1
      (quietUpdate 0)).statusChanged = ["STATUS ERROR"] ∧
    (Update (updates sampleHandler (List.replicate 180 (quietUpdate 0))).1
      (quietUpdate 0)).handler.statusResult = R_E_NO_DATA ∧
    (Update (updates sampleHandler (List.replicate 180 (quietUpdate 0))).1
      (quietUpdate 0)).handler.eRetries = 0 := by
  refine ⟨by decide, by decide, ?_, ?_⟩
  · refine noDataThroughout_quiet _ _ (by decide) ?_
    intro e he
    rw [List.eq_of_mem_replicate he]
    rfl
  · rw [updates_quiet 179 0 sampleHandler (by decide) (by decide) (by decide) (by decide)
        (by decide),
      updates_quiet 180 0 sampleHandler (by decide) (by decide) (by decide) (by decide)
        (by decide)]
    decide


/-- C1, amended. For an initialized handler whose retry counter is 0 and a run of
181 consecutive `Update` calls during which `isDataAvailable()` is false: after each
of the first 180 calls the status is what it was before the run and the counter
equals the number of calls made, and none of these calls emits a status-change
notification; the 181st call sets the status to NoData or ConnectionDead, resets the
counter to 0 and emits exactly one status-change notification. -/
theorem retry_threshold_181st (s : TrackingHandler M) (envs : List (UpdateEnv M))
    (env : UpdateEnv M) (hi : s.initialized = true) (h0 : s.eRetries = 0)
    (hlen : envs.length = 180) (hnd : noDataThroughout s (envs ++ [env]) = true) :
    (∀ k, k ≤ 180 → (updates s (envs.take k)).1.statusResult = s.statusResult ∧
      (updates s (envs.take k)).1.eRetries = k) ∧
    (∀ out ∈ (updates s envs).2, out = []) ∧
    ((Update (updates s envs).1 env).handler.statusResult = R_E_NO_DATA ∨
      (Update (updates s envs).1 env).handler.statusResult = R_E_CON_DEAD) ∧
    (Update (updates s envs).1 env).handler.eRetries = 0 ∧
    (Update (updates s envs).1 env).statusChanged.length = 1 := by
  rw [noDataThroughout_append, Bool.and_eq_true] at hnd
  have hall := updates_noData_below envs s hi (by rw [h0, hlen]; decide) hnd.1
  have hlast : isDataAvailable (tick (updates s envs).1.dataServer env.data).server = false := by
    have := hnd.2
    simp only [noDataThroughout, Bool.and_true, Bool.not_eq_true'] at this
    exact this
  have hdue := Update_noData_due (updates s envs).1 env hall.1 hlast
    (by rw [hall.2.2.1, h0, hlen]; decide)
  refine ⟨?_, hall.2.2.2, ?_, by rw [hdue.1], by rw [hdue.2]; rfl⟩
  · intro k hk
    have hpre : noDataThroughout s (envs.take k) = true := by
      have h := hnd.1
      rw [← List.take_append_drop k envs, noDataThroughout_append, Bool.and_eq_true] at h
      exact h.1
    have hlk : (envs.take k).length = k := by
      rw [List.length_take, hlen]; omega
    have := updates_noData_below (envs.take k) s hi (by rw [h0, hlk]; omega) hpre
    exact ⟨this.2.1, by rw [this.2.2.1, h0, hlk]; simp⟩
  · rw [hdue.1]
    show (if _ then R_E_NO_DATA else R_E_CON_DEAD) = R_E_NO_DATA ∨
      (if _ then R_E_NO_DATA else R_E_CON_DEAD) = R_E_CON_DEAD
    split
    · exact Or.inl rfl
    · exact Or.inr rfl

/-- C1, witness: the amended statement at a handler just initialized and 181 calls
during which no datagram arrives and the clock stays at 0. -/
theorem retry_threshold_181st_witness :
    (Update (updates sampleHandler (List.replicate 180 (quietUpdate 0))).1
      (quietUpdate 0)).handler.eRetries = 0 ∧
    (Update (updates sampleHandler (List.replicate 180 (quietUpdate 0))).1
      (quietUpdate 0)).statusChanged.length = 1 :=
  (retry_threshold_181st sampleHandler (List.replicate 180 (quietUpdate 0)) (quietUpdate 0)
    (by decide) (by decide) (by rw [List.length_replicate])
    (noDataThroughout_quiet _ _ (by decide) (by
      intro e he
      rcases List.mem_append.mp he with h | h
      · rw [List.eq_of_mem_replicate h]; rfl
      · rw [List.mem_singleton.mp h]; rfl))).2.2.2

/-- C2, counterexample. The retry counter has reached 180 and no data is
available. With the connection alive (`isConnectionAlive` returns true) `Update`
sets the status to NoData, not ConnectionDead; with the connection dead it sets
ConnectionDead, not NoData. -/
theorem status_by_liveness_counterexample :
    (isConnectionAlive (tick ({ sampleHandler with eRetries := 180 } : TrackingHandler
      termMath).dataServer (quietTick 0)).server).1 = true ∧
    (Update ({ sampleHandler with eRetries := 180 } : TrackingHandler termMath)
      (quietUpdate 0)).handler.statusResult = R_E_NO_DATA ∧
    (isConnectionAlive (tick ({ sampleHandler with eRetries := 180 } : TrackingHandler
      termMath).dataServer (quietTick 100)).server).1 = false ∧
    (Update ({ sampleHandler with eRetries := 180 } : TrackingHandler termMath)
      (quietUpdate 100)).handler.statusResult = R_E_CON_DEAD := by
  decide

/-- C2, amended. For every initialized handler state in which `isDataAvailable()` is
false and the retry counter has reached its threshold of 180, `Update` sets the
status to NoData when `isConnectionAlive()` reports the connection alive, and to
ConnectionDead when it reports the connection dead. -/
theorem status_by_liveness (s : TrackingHandler M) (env : UpdateEnv M)
    (hi : s.initialized = true)
    (hnd : isDataAvailable (tick s.dataServer env.data).server = false)
    (hr : 180 ≤ s.eRetries) :
    ((isConnectionAlive (tick s.dataServer env.data).server).1 = true →
      (Update s env).handler.statusResult = R_E_NO_DATA) ∧
    ((isConnectionAlive (tick s.dataServer env.data).server).1 = false →
      (Update s env).handler.statusResult = R_E_CON_DEAD) := by
  rw [(Update_noData_due s env hi hnd hr).1]
  constructor <;> intro h <;> simp [h]

/-- C2, witness: the amended statement at a handler whose counter is 180, with the
connection alive. -/
theorem status_by_liveness_witness :
    (Update ({ sampleHandler with eRetries := 180 } : TrackingHandler termMath)
      (quietUpdate 0)).handler.statusResult = R_E_NO_DATA :=
  (status_by_liveness ({ sampleHandler with eRetries := 180 } : TrackingHandler termMath)
    (quietUpdate 0) (by decide) (by decide) (by decide)).1 (by decide)

/-- C3, the code at the failing input. A handler just initialized (status
ConnectionDead) goes through 181 `Update` calls during which no datagram arrives and
the clock reads 1700000000. The 181st call finds the connection dead and stores
ConnectionDead again: the status after the call equals the status before it, and the
call emits the notification "STATUS ERROR". -/
theorem notification_without_change :
    (updates sampleHandler (List.replicate 180 (quietUpdate 1700000000))).1.statusResult
      = R_E_CON_DEAD ∧
    (Update (updates sampleHandler (List.replicate 180 (quietUpdate 1700000000))).1
      (quietUpdate 1700000000)).handler.statusResult = R_E_CON_DEAD ∧
    (Update (updates sampleHandler (List.replicate 180 (quietUpdate 1700000000))).1
      (quietUpdate 1700000000)).statusChanged = ["STATUS ERROR"] := by
  rw [updates_quiet 180 1700000000 sampleHandler (by decide) (by decide) (by decide)
    (by decide) (by decide)]
  decide

/-- In the data-available branch `Update` emits a notification exactly when the
status changes. -/
theorem Update_data_notifies_iff_changed (s : TrackingHandler M) (env : UpdateEnv M)
    (hi : s.initialized = true)
    (hd : isDataAvailable (tick s.dataServer env.data).server = true) :
    ((Update s env).statusChanged ≠ [] ↔ (Update s env).handler.statusResult ≠ s.statusResult) := by
  have h := Update_data s env hi hd
  rw [h.1, h.2]
  by_cases hs : s.statusResult = S_OK
  · simp [hs]
  · simp only [ne_eq, hs, not_false_eq_true, if_true]
    constructor
    · intro _ he
      exact hs he.symm
    · intro _
      simp


/-! ### `CalculatePose`: the guard and the frame (C6, C7, C10) -/

theorem CalculatePose_state (s : TrackingHandler M) (h : Pose M.float) (y : M.float)
    (g d t : Vector M.float) :
    ∃ gr lr, (CalculatePose s h y g d t).2 = { s with globalRotation := gr, localRotation := lr } ∧
      (s.calibratingForward = false → gr = s.globalRotation) ∧
      (s.calibratingDown = false → lr = s.localRotation) := by
  unfold CalculatePose
  obtain ⟨i, cf, cd, p, st, ds, gr0, lr0, er⟩ := s
  split
  · exact ⟨gr0, lr0, rfl, fun _ => rfl, fun _ => rfl⟩
  · cases cf <;> cases cd
    · exact ⟨gr0, lr0, rfl, fun _ => rfl, fun _ => rfl⟩
    · exact ⟨gr0, _, rfl, fun _ => rfl, fun h => by simp at h⟩
    · exact ⟨_, lr0, rfl, fun h => by simp at h, fun _ => rfl⟩
    · exact ⟨_, _, rfl, fun h => by simp at h, fun h => by simp at h⟩

theorem CalculatePose_guard (s : TrackingHandler M) (h : Pose M.float) (y : M.float)
    (g d t : Vector M.float) (hn : s.initialized = false ∨ s.statusResult ≠ S_OK) :
    CalculatePose s h y g d t =
      (⟨⟨M.f32 0, M.f32 0, M.f32 0⟩, ⟨M.f32 0, M.f32 0, M.f32 0, M.f32 1⟩⟩, s) := by
  unfold CalculatePose
  rw [if_pos]
  rcases hn with hn | hn
  · simp [hn]
  · simp [hn]

/-- C6. When the handler is not initialized or its status is not Ok,
`CalculatePose` returns, for every headset pose, headset yaw and offsets, the pose
with position (0, 0, 0) and orientation (x, y, z, w) = (0, 0, 0, 1), and leaves the
handler, in particular `globalRotation`, `localRotation` and both calibration flags,
unchanged, whatever the calibration flags are. -/
theorem CalculatePose_not_running (s : TrackingHandler M) (headsetPose : Pose M.float)
    (headsetYaw : M.float) (globalOffset deviceOffset trackerOffset : Vector M.float)
    (h : s.initialized = false ∨ s.statusResult ≠ S_OK) :
    CalculatePose s headsetPose headsetYaw globalOffset deviceOffset trackerOffset =
      (⟨⟨M.f32 0, M.f32 0, M.f32 0⟩, ⟨M.f32 0, M.f32 0, M.f32 0, M.f32 1⟩⟩, s) :=
  CalculatePose_guard s headsetPose headsetYaw globalOffset deviceOffset trackerOffset h

/-- C6, witness: a handler that was never initialized, with both calibration flags
set. -/
theorem CalculatePose_not_running_witness :
    CalculatePose ({ TrackingHandler.fresh sampleServer with
        calibratingForward := true, calibratingDown := true } : TrackingHandler termMath)
      samplePose (Term.var "yaw") (sampleOffset "g") (sampleOffset "d") (sampleOffset "t") =
      (⟨⟨Term.f32 0, Term.f32 0, Term.f32 0⟩, ⟨Term.f32 0, Term.f32 0, Term.f32 0, Term.f32 1⟩⟩,
        { TrackingHandler.fresh sampleServer with
          calibratingForward := true, calibratingDown := true }) :=
  CalculatePose_not_running _ _ _ _ _ _ (Or.inl rfl)

/-- C7. For every input and every handler state, `CalculatePose` changes neither
`calibratingForward` nor `calibratingDown`, leaves `globalRotation` unchanged
whenever `calibratingForward` is false, and leaves `localRotation` unchanged
whenever `calibratingDown` is false. -/
theorem CalculatePose_frame (s : TrackingHandler M) (headsetPose : Pose M.float)
    (headsetYaw : M.float) (globalOffset deviceOffset trackerOffset : Vector M.float) :
    (CalculatePose s headsetPose headsetYaw globalOffset deviceOffset trackerOffset).2.calibratingForward
      = s.calibratingForward ∧
    (CalculatePose s headsetPose headsetYaw globalOffset deviceOffset trackerOffset).2.calibratingDown
      = s.calibratingDown ∧
    (s.calibratingForward = false →
      (CalculatePose s headsetPose headsetYaw globalOffset deviceOffset trackerOffset).2.globalRotation
        = s.globalRotation) ∧
    (s.calibratingDown = false →
      (CalculatePose s headsetPose headsetYaw globalOffset deviceOffset trackerOffset).2.localRotation
        = s.localRotation) := by
  obtain ⟨gr, lr, hs, hg, hl⟩ :=
    CalculatePose_state s headsetPose headsetYaw globalOffset deviceOffset trackerOffset
  rw [hs]
  exact ⟨rfl, rfl, hg, hl⟩

/-- C7, witness: a running handler calibrating down only keeps its
`globalRotation`; one calibrating forward only keeps its `localRotation`. -/
theorem CalculatePose_frame_witness :
    (CalculatePose ({ sampleHandler with statusResult := S_OK, calibratingDown := true } :
        TrackingHandler termMath)
      samplePose (Term.var "yaw") (sampleOffset "g") (sampleOffset "d")
      (sampleOffset "t")).2.globalRotation = sampleHandler.globalRotation ∧
    (CalculatePose ({ sampleHandler with statusResult := S_OK, calibratingForward := true } :
        TrackingHandler termMath)
      samplePose (Term.var "yaw") (sampleOffset "g") (sampleOffset "d")
      (sampleOffset "t")).2.localRotation = sampleHandler.localRotation :=
  ⟨(CalculatePose_frame _ _ _ _ _ _).2.2.1 rfl, (CalculatePose_frame _ _ _ _ _ _).2.2.2 rfl⟩

/-- While `calibratingForward` is set, the three offset arguments are overwritten
before they are used: the result of `CalculatePose` does not depend on them. -/
theorem CalculatePose_forward_ignores_offsets (s : TrackingHandler M)
    (headsetPose : Pose M.float) (headsetYaw : M.float)
    (g d t g2 d2 t2 : Vector M.float) (hf : s.calibratingForward = true) :
    CalculatePose s headsetPose headsetYaw g d t = CalculatePose s headsetPose headsetYaw g2 d2 t2 := by
  unfold CalculatePose
  simp only [hf, if_true]


theorem Update_initialized (s : TrackingHandler M) (env : UpdateEnv M) :
    (Update s env).handler.initialized = s.initialized := by
  cases hi : s.initialized
  · rw [Update_not_initialized s env hi]; exact hi
  · cases hd : isDataAvailable (tick s.dataServer env.data).server
    · by_cases hr : s.eRetries < 180
      · rw [(Update_noData_below s env hi hd hr).1]; exact hi
      · rw [(Update_noData_due s env hi hd (by omega)).1]; exact hi
    · rw [(Update_data s env hi hd).1]; exact hi

theorem Update_status_cases (s : TrackingHandler M) (env : UpdateEnv M) :
    (Update s env).handler.statusResult = s.statusResult ∨
      (Update s env).handler.statusResult = R_E_NO_DATA ∨
      (Update s env).handler.statusResult = R_E_CON_DEAD ∨
      (Update s env).handler.statusResult = S_OK := by
  cases hi : s.initialized
  · rw [Update_not_initialized s env hi]; exact Or.inl rfl
  · cases hd : isDataAvailable (tick s.dataServer env.data).server
    · by_cases hr : s.eRetries < 180
      · rw [(Update_noData_below s env hi hd hr).1]; exact Or.inl rfl
      · rw [(Update_noData_due s env hi hd (by omega)).1]
        show (if _ then R_E_NO_DATA else R_E_CON_DEAD) = _ ∨
          (if _ then R_E_NO_DATA else R_E_CON_DEAD) = _ ∨
          (if _ then R_E_NO_DATA else R_E_CON_DEAD) = _ ∨ _
        split
        · exact Or.inr (Or.inl rfl)
        · exact Or.inr (Or.inr (Or.inl rfl))
    · rw [(Update_data s env hi hd).1]; exact Or.inr (Or.inr (Or.inr rfl))

theorem Initialize_cases (s : TrackingHandler M) (env : InitEnv M) :
    ((Initialize s env).ret = S_OK ∧ (Initialize s env).handler.initialized = true ∧
        (Initialize s env).handler.statusResult ≠ R_E_NOT_STARTED ∧
        (Initialize s env).handler.statusResult ≠ R_E_INIT_FAILED ∧
        (Initialize s env).handler.statusResult ≠ R_E_PORTS_TAKEN) ∨
      ((Initialize s env).ret = (Initialize s env).handler.statusResult ∧
        ((Initialize s env).handler.statusResult = R_E_PORTS_TAKEN ∨
          (Initialize s env).handler.statusResult = R_E_INIT_FAILED) ∧
        (Initialize s env).handler.initialized = s.initialized ∧
        (s.statusResult = R_E_NOT_STARTED ∨ s.statusResult = R_E_INIT_FAILED ∨
          s.statusResult = R_E_PORTS_TAKEN)) := by
  by_cases hs : s.statusResult = R_E_NOT_STARTED
  · cases hb : env.infoBound
    · right
      simp [Initialize, hs, hb]
    · cases hl : env.listen with
      | bound port => left; simp [Initialize, markInitialized, hs, hb, hl]
      | bindFailed => right; simp [Initialize, hs, hb, hl]
      | threw what => right; simp [Initialize, hs, hb, hl]
  · by_cases hf : s.statusResult ≠ R_E_INIT_FAILED ∧ s.statusResult ≠ R_E_PORTS_TAKEN
    · left
      have e : Initialize s env = markInitialized s [] := by
        simp only [Initialize, if_neg hs]
      have e2 : markInitialized s [] = ⟨{ s with initialized := true,
                                                 calibratingForward := false,
                                                 calibratingDown := false }, S_OK, []⟩ := by
        simp only [markInitialized, if_pos hf]
      rw [e, e2]
      exact ⟨rfl, rfl, hs, hf.1, hf.2⟩
    · right
      have e : Initialize s env = ⟨s, s.statusResult, []⟩ := by
        simp only [Initialize, if_neg hs, markInitialized, if_neg hf]
      rw [e]
      have : s.statusResult = R_E_INIT_FAILED ∨ s.statusResult = R_E_PORTS_TAKEN := by
        by_contra hc
        exact hf ⟨fun h => hc (Or.inl h), fun h => hc (Or.inr h)⟩
      exact ⟨rfl, this.symm, rfl, Or.inr this⟩

theorem Initialize_ports_taken (s : TrackingHandler M) (env : InitEnv M)
    (hs : s.statusResult = R_E_NOT_STARTED)
    (hb : env.infoBound = false ∨ env.listen = ListenOutcome.bindFailed) :
    (Initialize s env).ret = R_E_PORTS_TAKEN ∧
      (Initialize s env).handler.statusResult = R_E_PORTS_TAKEN ∧
      (Initialize s env).handler.initialized = s.initialized := by
  cases hi : env.infoBound
  · simp [Initialize, hs, hi]
  · rcases hb with hb | hb
    · rw [hi] at hb; cases hb
    · simp [Initialize, hs, hi, hb]

theorem Initialize_init_failed (s : TrackingHandler M) (env : InitEnv M) (what : String)
    (hs : s.statusResult = R_E_NOT_STARTED) (hb : env.infoBound = true)
    (hl : env.listen = ListenOutcome.threw what) :
    (Initialize s env).ret = R_E_INIT_FAILED ∧
      (Initialize s env).handler.statusResult = R_E_INIT_FAILED ∧
      (Initialize s env).handler.initialized = s.initialized := by
  simp [Initialize, hs, hb, hl]

theorem Initialize_of_failed (err : Int) (s : TrackingHandler M) (env : InitEnv M)
    (herr : err = R_E_PORTS_TAKEN ∨ err = R_E_INIT_FAILED) (h : FailedWith err s) :
    (Initialize s env).ret = err ∧ (Initialize s env).handler = s := by
  obtain ⟨hs, _⟩ := h
  rcases herr with rfl | rfl <;> simp [Initialize, markInitialized, hs]

theorem step_failed (err : Int) (s : TrackingHandler M) (c : Call M)
    (herr : err = R_E_PORTS_TAKEN ∨ err = R_E_INIT_FAILED) (h : FailedWith err s) :
    FailedWith err (step s c) := by
  cases c with
  | Update env => simp only [step]; rw [Update_not_initialized s env h.2]; exact h
  | Initialize env => simp only [step]; rw [(Initialize_of_failed err s env herr h).2]; exact h
  | Shutdown => exact ⟨h.1, rfl⟩
  | setPort value => exact h
  | setCalibratingForward value => exact h
  | setCalibratingDown value => exact h
  | setGlobalRotation value => exact h
  | setLocalRotation value => exact h
  | CalculatePose hp y g d t =>
    simp only [step]
    rw [CalculatePose_guard s hp y g d t (Or.inl h.2)]
    exact h

theorem run_failed (err : Int) (cs : List (Call M)) (s : TrackingHandler M)
    (herr : err = R_E_PORTS_TAKEN ∨ err = R_E_INIT_FAILED) (h : FailedWith err s) :
    FailedWith err (run s cs) := by
  induction cs generalizing s with
  | nil => exact h
  | cons c cs ih => exact ih (step s c) (step_failed err s c herr h)

theorem step_startedInv (s : TrackingHandler M) (c : Call M) (h : StartedInv s) :
    StartedInv (step s c) := by
  cases c with
  | Update env =>
    intro hi
    simp only [step] at hi ⊢
    rw [Update_initialized] at hi
    have h3 := h hi
    rcases Update_status_cases s env with e | e | e | e <;> rw [e]
    · exact h3
    all_goals decide
  | Initialize env =>
    intro hi
    simp only [step] at hi ⊢
    rcases Initialize_cases s env with hc | hc
    · exact hc.2.2
    · rw [hc.2.2.1] at hi
      have h3 := h hi
      rcases hc.2.2.2 with e | e | e
      · exact absurd e h3.1
      · exact absurd e h3.2.1
      · exact absurd e h3.2.2
  | Shutdown => intro hi; cases hi
  | setPort value => exact h
  | setCalibratingForward value => exact h
  | setCalibratingDown value => exact h
  | setGlobalRotation value => exact h
  | setLocalRotation value => exact h
  | CalculatePose hp y g d t =>
    obtain ⟨gr, lr, hs, _, _⟩ := CalculatePose_state s hp y g d t
    simp only [step]
    rw [hs]
    exact h

theorem run_fresh_startedInv (cs : List (Call M)) (s : TrackingHandler M) (h : StartedInv s) :
    StartedInv (run s cs) := by
  induction cs generalizing s with
  | nil => exact h
  | cons c cs ih => exact ih (step s c) (step_startedInv s c h)

theorem fresh_startedInv (g : UDPDeviceQuatServer M.real) :
    StartedInv (TrackingHandler.fresh g : TrackingHandler M) := by
  intro hi
  cases hi

/-- C8. For a handler a host can reach from a default-constructed one, in the
NotStarted status: if binding the discovery socket or the data socket fails,
`Initialize` returns PortsTaken and sets the status to PortsTaken; if
`startListening` throws a system error, it returns InitFailed and sets the status to
InitFailed; in both cases `initialized` stays false, and after any later calls every
`Initialize` returns the same error status and leaves `initialized` false.
`Initialize` returns Ok exactly when it leaves `initialized` set to true. -/
theorem Initialize_errors (s : TrackingHandler M) (env : InitEnv M)
    (hreach : ∃ g cs, s = run (TrackingHandler.fresh g) cs) :
    (s.statusResult = R_E_NOT_STARTED →
      (env.infoBound = false ∨ env.listen = ListenOutcome.bindFailed) →
      (Initialize s env).ret = R_E_PORTS_TAKEN ∧
      (Initialize s env).handler.statusResult = R_E_PORTS_TAKEN ∧
      (Initialize s env).handler.initialized = false ∧
      ∀ (later : List (Call M)) (env2 : InitEnv M),
        (Initialize (run (Initialize s env).handler later) env2).ret = R_E_PORTS_TAKEN ∧
        (Initialize (run (Initialize s env).handler later) env2).handler.initialized = false) ∧
    (s.statusResult = R_E_NOT_STARTED → env.infoBound = true →
      (∃ what, env.listen = ListenOutcome.threw what) →
      (Initialize s env).ret = R_E_INIT_FAILED ∧
      (Initialize s env).handler.statusResult = R_E_INIT_FAILED ∧
      (Initialize s env).handler.initialized = false ∧
      ∀ (later : List (Call M)) (env2 : InitEnv M),
        (Initialize (run (Initialize s env).handler later) env2).ret = R_E_INIT_FAILED ∧
        (Initialize (run (Initialize s env).handler later) env2).handler.initialized = false) ∧
    ((Initialize s env).ret = S_OK ↔ (Initialize s env).handler.initialized = true) := by
  obtain ⟨g, cs, rfl⟩ := hreach
  have hinv : StartedInv (run (TrackingHandler.fresh g) cs : TrackingHandler M) :=
    run_fresh_startedInv cs _ (fresh_startedInv g)
  have hoff : ∀ s : TrackingHandler M, StartedInv s → s.statusResult = R_E_NOT_STARTED →
      s.initialized = false := by
    intro s hs hst
    cases hi : s.initialized
    · rfl
    · exact absurd hst (hs hi).1
  have hlater : ∀ (err : Int) (s1 : TrackingHandler M),
      err = R_E_PORTS_TAKEN ∨ err = R_E_INIT_FAILED → FailedWith err s1 →
      ∀ (later : List (Call M)) (env2 : InitEnv M),
        (Initialize (run s1 later) env2).ret = err ∧
        (Initialize (run s1 later) env2).handler.initialized = false := by
    intro err s1 herr hf later env2
    have hr := run_failed err later s1 herr hf
    have hi := Initialize_of_failed err (run s1 later) env2 herr hr
    exact ⟨hi.1, by rw [hi.2]; exact hr.2⟩
  refine ⟨?_, ?_, ?_⟩
  · intro hst hb
    have h := Initialize_ports_taken _ env hst hb
    have hi0 := hoff _ hinv hst
    exact ⟨h.1, h.2.1, by rw [h.2.2]; exact hi0,
      hlater _ _ (Or.inl rfl) ⟨h.2.1, by rw [h.2.2]; exact hi0⟩⟩
  · intro hst hb hl
    obtain ⟨what, hl⟩ := hl
    have h := Initialize_init_failed _ env what hst hb hl
    have hi0 := hoff _ hinv hst
    exact ⟨h.1, h.2.1, by rw [h.2.2]; exact hi0,
      hlater _ _ (Or.inr rfl) ⟨h.2.1, by rw [h.2.2]; exact hi0⟩⟩
  · rcases Initialize_cases (run (TrackingHandler.fresh g) cs) env with hc | hc
    · exact ⟨fun _ => hc.2.1, fun _ => hc.1⟩
    · constructor
      · intro hret
        rw [hc.1] at hret
        rcases hc.2.1 with e | e <;> rw [e] at hret <;> exact absurd hret (by decide)
      · intro hi
        rw [hc.2.2.1] at hi
        have h3 := hinv hi
        rcases hc.2.2.2 with e | e | e
        · exact absurd e h3.1
        · exact absurd e h3.2.1
        · exact absurd e h3.2.2

/-- C8, witness: a default-constructed handler whose discovery port cannot be bound,
and one whose data listener throws. -/
theorem Initialize_errors_witness :
    (Initialize (TrackingHandler.fresh sampleServer : TrackingHandler termMath)
      ⟨0, (Term.lit 0, Term.lit 0, Term.lit 0, Term.lit 1), false, ListenOutcome.bound 6969⟩).ret
      = R_E_PORTS_TAKEN ∧
    (Initialize (TrackingHandler.fresh sampleServer : TrackingHandler termMath)
      ⟨0, (Term.lit 0, Term.lit 0, Term.lit 0, Term.lit 1), true,
        ListenOutcome.threw "bind"⟩).ret = R_E_INIT_FAILED :=
  ⟨((Initialize_errors _ _ ⟨sampleServer, [], rfl⟩).1 rfl (Or.inl rfl)).1,
   ((Initialize_errors _ _ ⟨sampleServer, [], rfl⟩).2.1 rfl rfl ⟨"bind", rfl⟩).1⟩


end OwoTrack
